import Mathlib

/-!
Verification of the trading decision and risk control core of robo-pilot-max,
together with its Next.js dashboard components.

The Python backend (`core/`) is not part of the checked-in sources, so the
backend components (RiskLedger, CircuitBreaker, EdgeFilter, PositionSizer,
RiskFence, ModeController, TradingLoop, ControlSurface) are modelled from the
specification; the dashboard components (`ActivePositions.tsx`,
`AccountStatus.tsx`, `TrafficLight.tsx`) are embedded directly from the
TypeScript sources.  Fractions and monetary amounts are modelled as rationals.
-/

/-- Operating mode of the bot: steady income or aggressive turbo trading. -/
inductive Mode
  | income
  | turbo
deriving DecidableEq

/-- Modelled from the spec: RiskBudget configuration (§3): `dailyLimitFraction`,
`perTradeLimitFraction`, `circuitBreakerMovePct` (default 0.02). -/
structure RiskBudget where
  dailyLimitFraction : ℚ
  perTradeLimitFraction : ℚ
  circuitBreakerMovePct : ℚ
deriving DecidableEq

/-- Default circuit breaker threshold: a 2% market move (README: ">2% SPY move"). -/
def defaultCircuitBreakerMovePct : ℚ := 2/100

/-- Modelled from the spec: AccountState (§3): balance, mode,
`dailyRiskUsedFraction` in 0..1, and the signed win/loss streak. -/
structure AccountState where
  balance : ℚ
  mode : Mode
  dailyRiskUsedFraction : ℚ
  streak : ℤ
deriving DecidableEq

/-- Modelled from the spec: CandidateTrade (§3), ephemeral input to RiskFence. -/
structure CandidateTrade where
  strategyId : String
  symbol : String
  proposedSize : ℚ
  edgeScore : ℚ
  estimatedRisk : ℚ
deriving DecidableEq

/-- Modelled from the spec: market-wide inputs observed by the CircuitBreaker. -/
structure MarketSignal where
  marketMoveAbsPct : ℚ
  newsFlag : Bool
deriving DecidableEq

/-- Result of a CircuitBreaker evaluation (§4.2). -/
inductive BreakerSignal
  | Allowed
  | Blocked
deriving DecidableEq

/-- Rejection and failure reasons from the error taxonomy (§7). -/
inductive FailReason
  | CircuitBreakerTripped
  | DailyLimitExceeded
  | PerTradeLimitExceeded
  | EdgeTooLow
  | ModeSwitchBlocked
  | BudgetExceeded
deriving DecidableEq

/-- Modelled from the spec: `CircuitBreaker.evaluate(marketMoveAbsPct, newsFlag)`
(§4.2).  Blocks when the move strictly exceeds the configured threshold OR the
news flag is set; a move exactly at the threshold is not blocking. -/
def CircuitBreaker.evaluate (marketMoveAbsPct : ℚ) (newsFlag : Bool)
    (circuitBreakerMovePct : ℚ) : BreakerSignal :=
  if circuitBreakerMovePct < marketMoveAbsPct ∨ newsFlag = true then
    BreakerSignal.Blocked
  else
    BreakerSignal.Allowed

/-- Modelled from the spec: `EdgeFilter.passes(candidate, minEdge)` (§4.3).
The injected scoring function may fail (`none`), which is fail-closed:
the candidate is rejected, never defaulted to pass. -/
def EdgeFilter.passes (score : CandidateTrade → Option ℚ)
    (candidate : CandidateTrade) (minEdge : ℚ) : Bool :=
  match score candidate with
  | none => false
  | some s => decide (minEdge ≤ s)

/-- Modelled from the spec: the turbo-compound streak multiplier (§4.4).
On a streak of ≥ 3 wins multiply by `min(1 + 0.1*streak, 1.5)`;
on a streak of ≤ -2 losses multiply by `max(1 - 0.15*|streak|, 0.5)`. -/
def PositionSizer.streakMultiplier (streak : ℤ) : ℚ :=
  if 3 ≤ streak then min (1 + (1/10) * (streak : ℚ)) (3/2)
  else if streak ≤ -2 then max (1 - (15/100) * ((streak.natAbs : ℚ))) (1/2)
  else 1

/-- Modelled from the spec: `PositionSizer.size(accountState, riskBudget)`
(§4.4).  Base size is `perTradeLimitFraction`, adjusted by the streak
multiplier, and the result is clamped to `[0.1×base, perTradeLimitFraction]`. -/
def PositionSizer.size (accountState : AccountState) (riskBudget : RiskBudget) : ℚ :=
  let base := riskBudget.perTradeLimitFraction
  let sized := base * PositionSizer.streakMultiplier accountState.streak
  max ((1/10) * base) (min sized riskBudget.perTradeLimitFraction)

/-- Admission decision of the RiskFence (§4.5). -/
inductive AdmitResult
  | Admitted (sizeFraction : ℚ)
  | Rejected (reason : FailReason)
deriving DecidableEq

/-- Modelled from the spec: `RiskFence.admitCandidate` (§4.5).  Sequential checks,
short-circuiting on the first failure, in this fixed order:
(1) CircuitBreaker, (2) daily budget, (3) EdgeFilter, (4) per-trade sizing
with a defensive re-check of the sized risk against the per-trade ceiling. -/
def RiskFence.admitCandidate (score : CandidateTrade → Option ℚ) (minEdge : ℚ)
    (candidate : CandidateTrade) (accountState : AccountState)
    (riskBudget : RiskBudget) (marketSignal : MarketSignal) : AdmitResult :=
  if CircuitBreaker.evaluate marketSignal.marketMoveAbsPct marketSignal.newsFlag
      riskBudget.circuitBreakerMovePct = BreakerSignal.Blocked then
    AdmitResult.Rejected FailReason.CircuitBreakerTripped
  else if riskBudget.dailyLimitFraction <
      accountState.dailyRiskUsedFraction + candidate.estimatedRisk then
    AdmitResult.Rejected FailReason.DailyLimitExceeded
  else if ¬ EdgeFilter.passes score candidate minEdge = true then
    AdmitResult.Rejected FailReason.EdgeTooLow
  else
    let sized := PositionSizer.size accountState riskBudget
    if riskBudget.perTradeLimitFraction < sized then
      AdmitResult.Rejected FailReason.PerTradeLimitExceeded
    else
      AdmitResult.Admitted sized

/-- Modelled from the spec: `RiskLedger.recordFill(trade, realizedRisk)` (§4.1):
adds `realizedRisk` to `dailyRiskUsedFraction`, failing with `BudgetExceeded`
if the update would push usage above 1.0. -/
def RiskLedger.recordFill (accountState : AccountState) (realizedRisk : ℚ) :
    Except FailReason AccountState :=
  if 1 < accountState.dailyRiskUsedFraction + realizedRisk then
    Except.error FailReason.BudgetExceeded
  else
    Except.ok { accountState with
      dailyRiskUsedFraction := accountState.dailyRiskUsedFraction + realizedRisk }

/-- Modelled from the spec: one admission of the TradingLoop tick (§4.7, §4.5):
submit the candidate to `RiskFence.admitCandidate`; on `Admitted`, atomically reserve the
candidate's estimated risk in the ledger via `recordFill` (the quantity checked
against the daily budget in step 2 of the fence); on `Rejected`, no side effect.
The atomic reserve means concurrent admissions linearize into a sequence of
these steps. -/
def TradingLoop.processCandidate (score : CandidateTrade → Option ℚ) (minEdge : ℚ)
    (riskBudget : RiskBudget) (marketSignal : MarketSignal)
    (accountState : AccountState) (candidate : CandidateTrade) : AccountState :=
  match RiskFence.admitCandidate score minEdge candidate accountState riskBudget marketSignal with
  | AdmitResult.Admitted _ =>
      match RiskLedger.recordFill accountState candidate.estimatedRisk with
      | Except.ok accountState' => accountState'
      | Except.error _ => accountState
  | AdmitResult.Rejected _ => accountState

/-- Modelled from the spec: a sequence of admission attempts against the same
daily budget (§4.7), processed left to right. -/
def TradingLoop.processCandidates (score : CandidateTrade → Option ℚ) (minEdge : ℚ)
    (riskBudget : RiskBudget) (marketSignal : MarketSignal)
    (accountState : AccountState) (candidates : List CandidateTrade) : AccountState :=
  candidates.foldl (TradingLoop.processCandidate score minEdge riskBudget marketSignal)
    accountState

/-- Modelled from the spec: a Position (§3), tagged with the mode whose strategy
set opened it (§4.6 guards mode switches on positions of the other mode). -/
structure Position where
  symbol : String
  openTimestamp : ℤ
  basis : ℚ
  currentMarkPnl : ℚ
  pctOfBalance : ℚ
  openedMode : Mode
deriving DecidableEq

/-- Modelled from the spec: ModeController state (§4.6): current mode plus the
currently open positions. -/
structure ModeControllerState where
  mode : Mode
  openPositions : List Position
deriving DecidableEq

/-- Modelled from the spec: `ModeController.switchMode(target)` (§4.6): a no-op
returning the current state when already in `target`; otherwise blocked with
`ModeSwitchBlocked` (state unchanged) when any open position was opened under
the mode being left; otherwise switches the mode. -/
def ModeController.switchMode (target : Mode) (st : ModeControllerState) :
    ModeControllerState × Option FailReason :=
  if st.mode = target then (st, none)
  else if st.openPositions.any (fun p => decide (p.openedMode ≠ target)) then
    (st, some FailReason.ModeSwitchBlocked)
  else ({ st with mode := target }, none)

/-- TradingLoop states (§4.7): Running, Paused, Halted (terminal). -/
inductive LoopState
  | Running
  | Paused
  | Halted
deriving DecidableEq

/-- Modelled from the spec: the pause command (§4.7, §6): `Running → Paused`;
idempotent with success while already `Paused`; `Halted` is terminal.  The Bool
is the explicit success flag the control surface returns. -/
def TradingLoop.pause : LoopState → LoopState × Bool
  | LoopState.Running => (LoopState.Paused, true)
  | LoopState.Paused => (LoopState.Paused, true)
  | LoopState.Halted => (LoopState.Halted, false)

/-- Modelled from the spec: the resume command (§4.7, §6): `Paused → Running`;
idempotent with success while already `Running`; `Halted` is terminal. -/
def TradingLoop.resume : LoopState → LoopState × Bool
  | LoopState.Running => (LoopState.Running, true)
  | LoopState.Paused => (LoopState.Running, true)
  | LoopState.Halted => (LoopState.Halted, false)

/-- Modelled from the spec: the core state touched by the control surface for a
risk-level change: the account (with its reserved daily risk) and the active
RiskBudget. -/
structure CoreState where
  account : AccountState
  budget : RiskBudget
deriving DecidableEq

/-- Body of `POST /api/update_risk`: exactly the keys `daily_limit` and
`per_trade_limit` (spec §6; sent by `handleRiskLevel` in the dashboard). -/
structure UpdateRiskBody where
  daily_limit : ℚ
  per_trade_limit : ℚ
deriving DecidableEq

/-- Modelled from the spec: the `POST /api/update_risk` handler (§6): replaces
the active RiskBudget atomically with the limits from the body; the reserved
daily risk in the account is untouched. -/
def ControlSurface.updateRisk (body : UpdateRiskBody) (st : CoreState) : CoreState :=
  { st with budget :=
      { dailyLimitFraction := body.daily_limit
        perTradeLimitFraction := body.per_trade_limit
        circuitBreakerMovePct := st.budget.circuitBreakerMovePct } }

/-- Risk levels offered by the dashboard's quick controls. -/
inductive RiskLevel
  | low
  | medium
  | high
deriving DecidableEq

/-- From `ActivePositions.tsx` (`handleRiskLevel`): the `riskSettings` table
mapping a risk level to `(daily, perTrade)` limits. -/
def Dashboard.riskSettings : RiskLevel → ℚ × ℚ
  | RiskLevel.low => (2/100, 5/1000)
  | RiskLevel.medium => (6/100, 1/100)
  | RiskLevel.high => (10/100, 2/100)

/-- From `ActivePositions.tsx` (`handleRiskLevel`): the request body sent to
`POST /api/update_risk` for a chosen risk level. -/
def Dashboard.updateRiskBody (level : RiskLevel) : UpdateRiskBody :=
  { daily_limit := (Dashboard.riskSettings level).1
    per_trade_limit := (Dashboard.riskSettings level).2 }

/-- From `ActivePositions.tsx`: the `Position` interface consumed by the
`ActivePositions` component: symbol, pnl, pct. -/
structure ActivePositions.Position where
  symbol : String
  pnl : ℚ
  pct : ℚ
deriving DecidableEq

/-- From `TrafficLight.tsx`: the three-valued system status. -/
inductive TrafficStatus
  | green
  | yellow
  | red
deriving DecidableEq

/-- From `ActivePositions.tsx` (Dashboard): the `Stats` interface populated from
`GET /api/stats`. -/
structure Dashboard.Stats where
  mode : Mode
  balance : ℚ
  todayPnl : ℚ
  weekPnl : ℚ
  positions : List ActivePositions.Position
  systemStatus : TrafficStatus
  isPaused : Bool
  riskUsed : ℚ
  lastUpdate : String

/-- Modelled from the spec: the fields of the `GET /api/stats` response (§6):
mode, balance, today/week P&L, open positions, traffic-light status, paused
flag, risk-used percentage, last-update timestamp. -/
structure ApiStatsResponse where
  mode : Mode
  balance : ℚ
  todayPnl : ℚ
  weekPnl : ℚ
  openPositions : List ActivePositions.Position
  trafficLightStatus : TrafficStatus
  pausedFlag : Bool
  riskUsedPercentage : ℚ
  lastUpdateTimestamp : String

/-- Reading a `GET /api/stats` response into the dashboard's `Stats` record,
field for field. -/
def Dashboard.statsOfResponse (r : ApiStatsResponse) : Dashboard.Stats :=
  { mode := r.mode
    balance := r.balance
    todayPnl := r.todayPnl
    weekPnl := r.weekPnl
    positions := r.openPositions
    systemStatus := r.trafficLightStatus
    isPaused := r.pausedFlag
    riskUsed := r.riskUsedPercentage
    lastUpdate := r.lastUpdateTimestamp }

/-- Writing the dashboard's `Stats` record back as a `GET /api/stats` response,
field for field. -/
def Dashboard.responseOfStats (s : Dashboard.Stats) : ApiStatsResponse :=
  { mode := s.mode
    balance := s.balance
    todayPnl := s.todayPnl
    weekPnl := s.weekPnl
    openPositions := s.positions
    trafficLightStatus := s.systemStatus
    pausedFlag := s.isPaused
    riskUsedPercentage := s.riskUsed
    lastUpdateTimestamp := s.lastUpdate }

/-- Models JavaScript `Number.prototype.toFixed(0)` for the nonnegative
arguments it receives here (the code applies `Math.abs` first): round half up
to an integer and print it. -/
def ActivePositions.toFixed0 (q : ℚ) : String := toString (round q).toNat

/-- From `ActivePositions.tsx`: `formatCurrency` renders a P&L value as
`sign + "$" + Math.abs(value).toFixed(0)` where the sign is `"+"` for
`value >= 0` and the empty string otherwise. -/
def ActivePositions.formatCurrency (value : ℚ) : String :=
  (if 0 ≤ value then "+" else "") ++ "$" ++ ActivePositions.toFixed0 |value|

/-- Division as JavaScript computes it: `none` models the non-finite result
(Infinity or NaN) produced when the denominator is zero. -/
def jsDiv (a b : ℚ) : Option ℚ :=
  if b = 0 then none else some (a / b)

/-- From `AccountStatus.tsx`: the percentage computed by `formatPnl`,
`(value / (balance - value)) * 100`, with no guard on the denominator. -/
def AccountStatus.formatPnlPercent (balance value : ℚ) : Option ℚ :=
  (jsDiv value (balance - value)).map (fun q => q * 100)

/-- From `ActivePositions.tsx` (Dashboard risk usage bar): the bar width in
percent, `Math.min(riskUsed, 100)`. -/
def Dashboard.riskBarWidth (riskUsed : ℚ) : ℚ := min riskUsed 100

/-- From `ActivePositions.tsx` (Dashboard risk usage bar): the bar colour,
`riskUsed > 80 ? red : riskUsed > 50 ? yellow : green`. -/
def Dashboard.riskBarColor (riskUsed : ℚ) : TrafficStatus :=
  if 80 < riskUsed then TrafficStatus.red
  else if 50 < riskUsed then TrafficStatus.yellow
  else TrafficStatus.green

/-- If the RiskFence admits a candidate, its daily budget check (step 2) passed:
the current usage plus the candidate's estimated risk fits the daily limit. -/
theorem RiskFence.admitted_daily_le (score : CandidateTrade → Option ℚ) (minEdge : ℚ)
    (candidate : CandidateTrade) (accountState : AccountState)
    (riskBudget : RiskBudget) (marketSignal : MarketSignal) (s : ℚ)
    (h : RiskFence.admitCandidate score minEdge candidate accountState riskBudget
        marketSignal = AdmitResult.Admitted s) :
    accountState.dailyRiskUsedFraction + candidate.estimatedRisk ≤
      riskBudget.dailyLimitFraction := by
  unfold RiskFence.admitCandidate at h
  split_ifs at h with h1 h2 h3
  all_goals first
    | (exfalso; exact AdmitResult.noConfusion h)
    | exact not_lt.mp h2

/-- A single processed candidate preserves the daily-limit invariant: an
admitted candidate's reserved risk was checked to fit, a rejected one reserves
nothing. -/
theorem TradingLoop.processCandidate_le (score : CandidateTrade → Option ℚ)
    (minEdge : ℚ) (riskBudget : RiskBudget) (marketSignal : MarketSignal)
    (accountState : AccountState) (candidate : CandidateTrade)
    (h : accountState.dailyRiskUsedFraction ≤ riskBudget.dailyLimitFraction) :
    (TradingLoop.processCandidate score minEdge riskBudget marketSignal accountState
        candidate).dailyRiskUsedFraction ≤ riskBudget.dailyLimitFraction := by
  cases hadm : RiskFence.admitCandidate score minEdge candidate accountState riskBudget
      marketSignal with
  | Admitted s =>
      have hd := RiskFence.admitted_daily_le score minEdge candidate accountState
        riskBudget marketSignal s hadm
      simp only [TradingLoop.processCandidate, hadm, RiskLedger.recordFill]
      split_ifs with h1
      · exact h
      · exact hd
  | Rejected r =>
      simp only [TradingLoop.processCandidate, hadm]
      exact h

/-- C1: for every sequence of admission attempts processed through the RiskFence
with atomic reservation of the admitted risk, the account's
`dailyRiskUsedFraction` never exceeds the configured `dailyLimitFraction`. -/
theorem dailyRiskUsed_never_exceeds_dailyLimit (score : CandidateTrade → Option ℚ)
    (minEdge : ℚ) (riskBudget : RiskBudget) (marketSignal : MarketSignal)
    (accountState : AccountState) (candidates : List CandidateTrade)
    (h : accountState.dailyRiskUsedFraction ≤ riskBudget.dailyLimitFraction) :
    (TradingLoop.processCandidates score minEdge riskBudget marketSignal accountState
        candidates).dailyRiskUsedFraction ≤ riskBudget.dailyLimitFraction := by
  induction candidates generalizing accountState with
  | nil => simpa [TradingLoop.processCandidates] using h
  | cons c cs ih =>
      simp only [TradingLoop.processCandidates, List.foldl_cons] at ih ⊢
      exact ih _ (TradingLoop.processCandidate_le score minEdge riskBudget marketSignal
        accountState c h)

/-- Witness for C1 at a concrete run: two candidates against a fresh 6% daily
budget, the second of which alone would exhaust it. -/
theorem dailyRiskUsed_never_exceeds_dailyLimit_witness :
    (TradingLoop.processCandidates (fun _ => some (9/10)) (1/2)
        ⟨6/100, 1/100, 2/100⟩ ⟨1/100, false⟩ ⟨5000, Mode.income, 0, 0⟩
        [⟨"condor", "SPY", 1/100, 9/10, 1/100⟩,
         ⟨"condor", "SPY", 1/100, 9/10, 6/100⟩]).dailyRiskUsedFraction ≤
      (RiskBudget.mk (6/100) (1/100) (2/100)).dailyLimitFraction :=
  dailyRiskUsed_never_exceeds_dailyLimit (fun _ => some (9/10)) (1/2)
    ⟨6/100, 1/100, 2/100⟩ ⟨1/100, false⟩ ⟨5000, Mode.income, 0, 0⟩
    [⟨"condor", "SPY", 1/100, 9/10, 1/100⟩, ⟨"condor", "SPY", 1/100, 9/10, 6/100⟩]
    (by norm_num)

/-- C2: the CircuitBreaker blocks exactly when the absolute market move is
strictly greater than the configured threshold or the news flag is set; a move
exactly at the threshold does not trip it, while any strictly larger move does. -/
theorem circuitBreaker_blocks_iff (t m : ℚ) (news : Bool) :
    (CircuitBreaker.evaluate m news t = BreakerSignal.Blocked ↔ t < m ∨ news = true) ∧
    CircuitBreaker.evaluate t false t = BreakerSignal.Allowed ∧
    (t < m → CircuitBreaker.evaluate m news t = BreakerSignal.Blocked) := by
  refine ⟨?_, ?_, ?_⟩
  · unfold CircuitBreaker.evaluate
    split_ifs with hc
    · simp [hc]
    · simp [hc]
  · simp [CircuitBreaker.evaluate]
  · intro hlt
    simp [CircuitBreaker.evaluate, hlt]

/-- Witness for C2 at the default 2% threshold: a 3% move trips the breaker,
and by the theorem a move of exactly 2% does not. -/
theorem circuitBreaker_blocks_iff_witness :
    CircuitBreaker.evaluate (3/100) false (2/100) = BreakerSignal.Blocked ∧
    CircuitBreaker.evaluate (2/100) false (2/100) = BreakerSignal.Allowed :=
  ⟨(circuitBreaker_blocks_iff (2/100) (3/100) false).2.2 (by norm_num),
   (circuitBreaker_blocks_iff (2/100) (3/100) false).2.1⟩

/-- C3: the PositionSizer's result is always clamped to
`[0.1 × perTradeLimitFraction, perTradeLimitFraction]`, so it never exceeds the
per-trade ceiling regardless of streak; with streak 4 and a 0.01 ceiling the
multiplier is 1.4, the raw size 0.014, and the clamped result 0.01. -/
theorem positionSizer_clamped (accountState : AccountState) (riskBudget : RiskBudget)
    (h : 0 ≤ riskBudget.perTradeLimitFraction) :
    ((1/10) * riskBudget.perTradeLimitFraction ≤ PositionSizer.size accountState riskBudget ∧
      PositionSizer.size accountState riskBudget ≤ riskBudget.perTradeLimitFraction) ∧
    (accountState.streak = 4 → riskBudget.perTradeLimitFraction = 1/100 →
      PositionSizer.streakMultiplier accountState.streak = 7/5 ∧
      PositionSizer.size accountState riskBudget = 1/100) := by
  constructor
  · constructor
    · simp only [PositionSizer.size]
      exact le_max_left _ _
    · simp only [PositionSizer.size]
      exact max_le (by linarith) (min_le_right _ _)
  · intro hs hp
    have hm : PositionSizer.streakMultiplier accountState.streak = 7/5 := by
      rw [hs]
      unfold PositionSizer.streakMultiplier
      norm_num
    refine ⟨hm, ?_⟩
    simp only [PositionSizer.size, hm, hp]
    norm_num [min_def, max_def]

/-- Witness for C3 (Scenario B): streak 4 against the medium risk budget gives
a final size of exactly the 0.01 ceiling. -/
theorem positionSizer_clamped_witness :
    PositionSizer.size ⟨5000, Mode.turbo, 0, 4⟩ ⟨6/100, 1/100, 2/100⟩ = 1/100 :=
  ((positionSizer_clamped ⟨5000, Mode.turbo, 0, 4⟩ ⟨6/100, 1/100, 2/100⟩
    (by norm_num)).2 rfl rfl).2

/-- C4: switching to the current mode is a no-op returning the current state;
switching to the other mode while a position opened under the mode being left
is still open fails with `ModeSwitchBlocked` and leaves the state unchanged. -/
theorem modeSwitch_noop_or_blocked (target : Mode) (st : ModeControllerState) :
    (st.mode = target → ModeController.switchMode target st = (st, none)) ∧
    (st.mode ≠ target → (∃ p ∈ st.openPositions, p.openedMode ≠ target) →
      ModeController.switchMode target st = (st, some FailReason.ModeSwitchBlocked)) := by
  constructor
  · intro he
    simp [ModeController.switchMode, he]
  · rintro hne ⟨p, hp, hpm⟩
    have hany : st.openPositions.any (fun p => decide (p.openedMode ≠ target)) = true :=
      List.any_eq_true.mpr ⟨p, hp, by simpa using hpm⟩
    unfold ModeController.switchMode
    rw [if_neg hne, if_pos hany]

/-- Witness for C4 (Scenario D): a switch to turbo while an income-mode position
remains open is blocked and the mode stays income. -/
theorem modeSwitch_noop_or_blocked_witness :
    ModeController.switchMode Mode.turbo
        ⟨Mode.income, [⟨"SPY", 0, 100, 5, 1/100, Mode.income⟩]⟩ =
      (⟨Mode.income, [⟨"SPY", 0, 100, 5, 1/100, Mode.income⟩]⟩,
        some FailReason.ModeSwitchBlocked) :=
  (modeSwitch_noop_or_blocked Mode.turbo
      ⟨Mode.income, [⟨"SPY", 0, 100, 5, 1/100, Mode.income⟩]⟩).2
    (by simp) ⟨⟨"SPY", 0, 100, 5, 1/100, Mode.income⟩, by simp, by simp⟩

/-- C5: the pause command is idempotent: pausing while already `Paused` leaves
the state unchanged and returns success, and symmetrically resuming while
`Running`; moreover a repeated pause always reproduces the first pause's result. -/
theorem pause_resume_idempotent :
    TradingLoop.pause LoopState.Paused = (LoopState.Paused, true) ∧
    TradingLoop.resume LoopState.Running = (LoopState.Running, true) ∧
    ∀ s : LoopState, TradingLoop.pause (TradingLoop.pause s).1 = TradingLoop.pause s := by
  refine ⟨rfl, rfl, ?_⟩
  intro s
  cases s <;> rfl

/-- C6: the `GET /api/stats` response carries exactly the fields the dashboard's
`Stats` type consumes: reading a response into `Stats` and writing it back is
the identity, in both directions. -/
theorem stats_fields_exact :
    (∀ r : ApiStatsResponse, Dashboard.responseOfStats (Dashboard.statsOfResponse r) = r) ∧
    (∀ s : Dashboard.Stats, Dashboard.statsOfResponse (Dashboard.responseOfStats s) = s) :=
  ⟨fun _ => rfl, fun _ => rfl⟩

/-- C7: `POST /api/update_risk` with body `{daily_limit, per_trade_limit}`
replaces the active RiskBudget with those limits, leaves the account (in
particular the already-reserved `dailyRiskUsedFraction`) unchanged, and only
subsequent admission checks see the new budget; the dashboard's risk-level
table feeds exactly these two keys. -/
theorem updateRisk_replaces_budget_only (body : UpdateRiskBody) (st : CoreState) :
    (ControlSurface.updateRisk body st).account = st.account ∧
    (ControlSurface.updateRisk body st).account.dailyRiskUsedFraction =
      st.account.dailyRiskUsedFraction ∧
    (ControlSurface.updateRisk body st).budget.dailyLimitFraction = body.daily_limit ∧
    (ControlSurface.updateRisk body st).budget.perTradeLimitFraction = body.per_trade_limit ∧
    (∀ level : RiskLevel,
      (ControlSurface.updateRisk (Dashboard.updateRiskBody level) st).budget.dailyLimitFraction =
          (Dashboard.riskSettings level).1 ∧
        (ControlSurface.updateRisk (Dashboard.updateRiskBody level) st).budget.perTradeLimitFraction =
          (Dashboard.riskSettings level).2) ∧
    (∀ (score : CandidateTrade → Option ℚ) (minEdge : ℚ) (candidate : CandidateTrade)
        (marketSignal : MarketSignal),
      RiskFence.admitCandidate score minEdge candidate
          (ControlSurface.updateRisk body st).account
          (ControlSurface.updateRisk body st).budget marketSignal =
        RiskFence.admitCandidate score minEdge candidate st.account
          ⟨body.daily_limit, body.per_trade_limit, st.budget.circuitBreakerMovePct⟩
          marketSignal) :=
  ⟨rfl, rfl, rfl, rfl, fun _ => ⟨rfl, rfl⟩, fun _ _ _ _ => rfl⟩

/-- C8: `formatCurrency` renders the absolute value of the P&L with a `"+"`
prefix when it is nonnegative and with no sign at all when it is negative, so
a gain's rendering is exactly the loss's rendering with `"+"` prepended and the
numeral alone never distinguishes the two. -/
theorem formatCurrency_sign (value : ℚ) :
    (0 ≤ value →
      ActivePositions.formatCurrency value = "+$" ++ ActivePositions.toFixed0 value) ∧
    (value < 0 →
      ActivePositions.formatCurrency value = "$" ++ ActivePositions.toFixed0 (-value) ∧
      ActivePositions.formatCurrency (-value) = "+" ++ ActivePositions.formatCurrency value) := by
  constructor
  · intro h
    unfold ActivePositions.formatCurrency
    rw [if_pos h, abs_of_nonneg h]
    rfl
  · intro h
    have h0 : (0 : ℚ) ≤ -value := by linarith
    constructor
    · unfold ActivePositions.formatCurrency
      rw [if_neg (not_le.mpr h), abs_of_neg h]
      rfl
    · unfold ActivePositions.formatCurrency
      rw [if_pos h0, if_neg (not_le.mpr h), abs_of_neg h, abs_of_nonneg h0]
      rfl

/-- Witness for C8 at a losing position of -5 dollars: the rendering carries no
sign, and the corresponding +5 gain is the same string with a plus in front. -/
theorem formatCurrency_sign_witness :
    ActivePositions.formatCurrency (-5) = "$" ++ ActivePositions.toFixed0 (-(-5)) ∧
    ActivePositions.formatCurrency (-(-5)) = "+" ++ ActivePositions.formatCurrency (-5) :=
  (formatCurrency_sign (-5)).2 (by norm_num)

/-- C9: the percentage in `AccountStatus.formatPnl` is computed as
`value / (balance - value) * 100` with no guard: it is a finite value whenever
`balance ≠ value`, and the zero denominator at `value = balance` yields no
finite percentage. -/
theorem formatPnlPercent_defined_iff (balance value : ℚ) :
    (balance ≠ value →
      AccountStatus.formatPnlPercent balance value =
        some (value / (balance - value) * 100)) ∧
    (value = balance → AccountStatus.formatPnlPercent balance value = none) := by
  constructor
  · intro h
    unfold AccountStatus.formatPnlPercent jsDiv
    rw [if_neg (sub_ne_zero.mpr h)]
    rfl
  · intro h
    subst h
    unfold AccountStatus.formatPnlPercent jsDiv
    rw [if_pos (sub_self value)]
    rfl

/-- Witness for C9: with balance 5000 and P&L 250 the percentage is finite; with
the P&L equal to the balance the denominator is zero and no finite value exists. -/
theorem formatPnlPercent_defined_iff_witness :
    AccountStatus.formatPnlPercent 5000 250 = some (250 / (5000 - 250) * 100) ∧
    AccountStatus.formatPnlPercent 250 250 = none :=
  ⟨(formatPnlPercent_defined_iff 5000 250).1 (by norm_num),
   (formatPnlPercent_defined_iff 250 250).2 rfl⟩

/-- C10: the daily-risk bar width is `min(riskUsed, 100)` percent, never more
than 100, and its colour is red exactly when `riskUsed > 80`, yellow exactly
when `50 < riskUsed ≤ 80`, and green otherwise. -/
theorem riskBar_width_color (riskUsed : ℚ) :
    Dashboard.riskBarWidth riskUsed ≤ 100 ∧
    (100 ≤ riskUsed → Dashboard.riskBarWidth riskUsed = 100) ∧
    (riskUsed ≤ 100 → Dashboard.riskBarWidth riskUsed = riskUsed) ∧
    (Dashboard.riskBarColor riskUsed = TrafficStatus.red ↔ 80 < riskUsed) ∧
    (Dashboard.riskBarColor riskUsed = TrafficStatus.yellow ↔
      50 < riskUsed ∧ riskUsed ≤ 80) ∧
    (Dashboard.riskBarColor riskUsed = TrafficStatus.green ↔ riskUsed ≤ 50) := by
  refine ⟨min_le_right _ _, fun h => min_eq_right h, fun h => min_eq_left h, ?_, ?_, ?_⟩ <;>
      unfold Dashboard.riskBarColor <;> split_ifs with h1 h2
  · exact iff_of_true rfl h1
  · exact iff_of_false (by decide) h1
  · exact iff_of_false (by decide) h1
  · exact iff_of_false (by decide) (fun hc => absurd hc.2 (not_le.mpr (by linarith)))
  · exact iff_of_true rfl ⟨h2, not_lt.mp h1⟩
  · exact iff_of_false (by decide) (fun hc => h2 hc.1)
  · exact iff_of_false (by decide) (not_le.mpr (by linarith))
  · exact iff_of_false (by decide) (not_le.mpr (by linarith))
  · exact iff_of_true rfl (not_lt.mp h2)

/-- Witness for C10 at riskUsed = 120: the bar is capped at 100 and red. -/
theorem riskBar_width_color_witness :
    Dashboard.riskBarWidth 120 = 100 ∧
    (Dashboard.riskBarColor 120 = TrafficStatus.red ↔ (80 : ℚ) < 120) :=
  ⟨(riskBar_width_color 120).2.1 (by norm_num), (riskBar_width_color 120).2.2.2.1⟩
